import Mathlib

/-!
Verification development for the GlosarioIngenieriaInformatica repository.

The repository contains three near-duplicate variants of the same
single-page glossary application:

* variant `V1`: `src/assets/js/app.js`
* variant `V2`: first IIFE of `src/unnamed/part_000` (lines 1-537)
* variant `V3`: second IIFE of `src/unnamed/part_000` (lines 538-1005)

JavaScript strings are modelled as `List Char` (`Str`), the DOM as a tree
of elements (`Dom`), module-level mutable state as explicit state records
threaded through the functions, and asynchronous fetches as an oracle
argument (`Option` of the parsed document for the data fetch, a
`Str → Bool` probe for image existence checks).
-/

/-- JavaScript strings, modelled as lists of characters. -/
abbrev Str := List Char

/-- The whitespace characters stripped by `String.prototype.trim`. -/
def wsChars : Str := " \t\n\r".data

/-- Model of `String.prototype.trim`. -/
def trim (s : Str) : Str :=
  ((s.dropWhile fun c => wsChars.contains c).reverse.dropWhile fun c => wsChars.contains c).reverse

/-- Model of `String.prototype.toLowerCase`. -/
def lower (s : Str) : Str := s.map Char.toLower

/-- `startsWithL hay needle` holds when `needle` is a prefix of `hay`. -/
def startsWithL : Str → Str → Bool
  | _, [] => true
  | [], _ :: _ => false
  | a :: as, b :: bs => a == b && startsWithL as bs

/-- Model of `String.prototype.includes`: `containsL hay needle` holds when
`needle` occurs contiguously inside `hay`. -/
def containsL (hay needle : Str) : Bool :=
  match hay with
  | [] => needle.isEmpty
  | h :: t => startsWithL (h :: t) needle || containsL t needle

/-- Keep-first deduplication, as performed by
`new Map(results.map(item => [JSON.stringify(item), item])).values()`
in variant V1: the first occurrence of each element is kept, in order. -/
def dedupFirstAux [DecidableEq α] (seen : List α) : List α → List α
  | [] => []
  | a :: as => if a ∈ seen then dedupFirstAux seen as else a :: dedupFirstAux (a :: seen) as

/-- JavaScript truthiness of an optional string: `undefined` and `''` are falsy. -/
def jsFalsy : Option Str → Bool
  | none => true
  | some v => v.isEmpty

/-- An error raised by the JavaScript runtime (dereferencing `null`, ...). -/
inductive JsError where
  | typeError
deriving DecidableEq

/-! ## Data model (§3 of the spec, field names of `data/glossary.json`).
Wrapped in a namespace because `Group` and `Window` would clash with Mathlib. -/

namespace Glossary

structure Card where
  id : Str
  es : Str
  en : Str
  def_es : Str
  def_en : Str
  img : Str
deriving DecidableEq

structure Group where
  id : Str
  title : Str
  members : List Str
  cards : List Card
deriving DecidableEq

structure Window where
  id : Str
  title : Str
  groups : List Str
deriving DecidableEq

/-- A subject record (`materia`).  `windows` is `none` when the JSON object
has no `windows` field. -/
structure Materia where
  id : Str
  code : Str
  title : Str
  description : Str
  groups : List Group
  windows : Option (List Window)
deriving DecidableEq

end Glossary

open Glossary

/-! ## DOM model -/

/-- A DOM subtree: an element with tag, `className`, attributes and children,
a text node (from `textContent`), or an unparsed `innerHTML` assignment. -/
inductive Dom where
  | el (tag : Str) (className : Option Str) (attrs : List (Str × Str)) (children : List Dom)
  | text (s : Str)
  | raw (html : Str)

def sIdKey : Str := "id".data

/-- Options accepted by the `createEl` helpers of variants V1 and V2. -/
structure ElOpts where
  className : Option Str := none
  id : Option Str := none
  textContent : Option Str := none
  attributes : List (Str × Str) := []
  children : List Dom := []

/-- The `createEl` helper: build an element, setting class, id, text and
attributes, then appending the children. -/
def createEl (tag : Str) (o : ElOpts) : Dom :=
  Dom.el tag o.className
    ((o.id.map fun i => (sIdKey, i)).toList ++ o.attributes)
    ((o.textContent.map Dom.text).toList ++ o.children)

def Dom.childrenD : Dom → List Dom
  | .el _ _ _ cs => cs
  | _ => []

def Dom.attrsD : Dom → List (Str × Str)
  | .el _ _ a _ => a
  | _ => []

mutual
/-- The concatenated text content of a subtree (attributes do not contribute). -/
def Dom.texts : Dom → Str
  | .el _ _ _ cs => textsList cs
  | .text s => s
  | .raw _ => []
def textsList : List Dom → Str
  | [] => []
  | d :: ds => Dom.texts d ++ textsList ds
end

mutual
/-- Erase all attributes of a subtree, keeping tags, classes, text and shape. -/
def scrubAttrs : Dom → Dom
  | .el t c _ cs => .el t c [] (scrubList cs)
  | .text s => .text s
  | .raw s => .raw s
def scrubList : List Dom → List Dom
  | [] => []
  | d :: ds => scrubAttrs d :: scrubList ds
end

mutual
/-- Number of elements in a subtree whose `className` is exactly `cls`. -/
def countClass (cls : Str) : Dom → Nat
  | .el _ c _ cs => (if c = some cls then 1 else 0) + countClassList cls cs
  | _ => 0
def countClassList (cls : Str) : List Dom → Nat
  | [] => 0
  | d :: ds => countClass cls d + countClassList cls ds
end

/-! ## String literals of the source code -/

def sAssetsImages : Str := "assets/images/".data
def sPlaceholderPath : Str := "assets/images/placeholder.png".data
def sDash : Str := " - ".data
def sCommaSpace : Str := ", ".data
def sZero : Str := "0".data
def sTrue : Str := "true".data
def sFalse : Str := "false".data
def sDiv : Str := "div".data
def sP : Str := "p".data
def sH1 : Str := "h1".data
def sH2 : Str := "h2".data
def sH3 : Str := "h3".data
def sH4 : Str := "h4".data
def sImg : Str := "img".data
def sButton : Str := "button".data
def sSection : Str := "section".data
def sHeaderTag : Str := "header".data
def sRoleKey : Str := "role".data
def sSrcKey : Str := "src".data
def sAltKey : Str := "alt".data
def sTabindexKey : Str := "tabindex".data
def sTabIndexKeyCamel : Str := "tabIndex".data
def sAriaLabelKey : Str := "aria-label".data
def sAriaControlsKey : Str := "aria-controls".data
def sAriaSelectedKey : Str := "aria-selected".data
def sAriaHiddenKey : Str := "aria-hidden".data
def sButtonRole : Str := "button".data
def sTabRole : Str := "tab".data
def sTablistRole : Str := "tablist".data
def sTabpanelRole : Str := "tabpanel".data

/-! ## Variant V1: `src/assets/js/app.js` -/

namespace V1

/-! ### Search / autocomplete (`attachAutocomplete`, lines 363-427) -/

/-- A search result pushed into `results`: `{type, data, subjectId?, groupId?}`. -/
inductive Match where
  | subjectM (data : Materia)
  | groupM (data : Group) (subjectId : Str)
  | cardM (data : Card) (subjectId : Str) (groupId : Str)
deriving DecidableEq

/-- The `results` array built by `handleSearch`: for each subject a subject
match when title or code contains the query, then per group a group match
and the matching card matches.  `query` is already lowercased. -/
def results (query : Str) (glossaryData : List Materia) : List Match :=
  glossaryData.flatMap fun subject =>
    (if containsL (lower subject.title) query || containsL (lower subject.code) query then
      [Match.subjectM subject] else [])
    ++ subject.groups.flatMap fun group =>
      (if containsL (lower group.title) query then [Match.groupM group subject.id] else [])
      ++ group.cards.filterMap fun card =>
        if containsL (lower card.es) query || containsL (lower card.en) query then
          some (Match.cardM card subject.id group.id) else none

/-- The debounced `handleSearch` callback, as a function from the raw input
value and the data cache to the list rendered into the autocomplete list.
The only short-circuit is `query.length === 0`; otherwise duplicates are
removed with a `Map` keyed by `JSON.stringify(item)` (keep-first). -/
def handleSearch (inputValue : Str) (glossaryData : List Materia) : List Match :=
  let query := lower inputValue
  if query.isEmpty then [] else dedupFirstAux [] (results query glossaryData)

/-! ### Image cache (`safeImageUrl` lines 89-107, `preloadImages` lines 137-145) -/

/-- The module-level `imageCache` plus a count of the HEAD probes performed. -/
structure ImgState where
  cache : Str → Option Str
  probes : Nat

def initImg : ImgState := { cache := fun _ => none, probes := 0 }

/-- `safeImageUrl(path)`: return the cached entry if present; otherwise probe
(`fetch(path, {method:'HEAD'})`, modelled by `probe`), cache and return the
path on success, the placeholder on failure or exception. -/
def safeImageUrl (probe : Str → Bool) (s : ImgState) (path : Str) : ImgState × Str :=
  match s.cache path with
  | some v => (s, v)
  | none =>
    if probe path then
      ({ cache := fun q => if q = path then some path else s.cache q,
         probes := s.probes + 1 }, path)
    else
      ({ cache := fun q => if q = path then some sPlaceholderPath else s.cache q,
         probes := s.probes + 1 }, sPlaceholderPath)

/-- `preloadImages(imagePaths)`: for each path whose cache entry is falsy,
mark the raw path as cached, without any existence probe. -/
def preloadImages (s : ImgState) (imagePaths : List Str) : ImgState :=
  { s with cache :=
      (imagePaths.foldl
        (fun c path => if jsFalsy (c path) then (fun q => if q = path then some path else c q) else c)
        s.cache) }

/-- Interleavings of the two writers of `imageCache`. -/
inductive ImgOp where
  | safe (path : Str)
  | preload (paths : List Str)

def runImgOps (probe : Str → Bool) : List ImgOp → ImgState → ImgState
  | [], s => s
  | ImgOp.safe p :: ops, s => runImgOps probe ops (safeImageUrl probe s p).1
  | ImgOp.preload ps :: ops, s => runImgOps probe ops (preloadImages s ps)

/-! ### Renderer (`renderMateria`/`renderGroup`/`renderCard`, lines 156-262) -/

def sCard : Str := "card".data
def sCardInner : Str := "card__inner".data
def sCardFaceFront : Str := "card__face card__face--front".data
def sCardFaceBack : Str := "card__face card__face--back".data
def sCardWord : Str := "card__word".data
def sCardImage : Str := "card__image".data
def sCardDefinition : Str := "card__definition".data
def sCardActions : Str := "card__actions".data
def sCardButton : Str := "card__button".data
def sSubject : Str := "subject".data
def sSubjectHeader : Str := "subject__header".data
def sSubjectTitle : Str := "subject__title".data
def sSubjectDescription : Str := "subject__description".data
def sGroupsContainer : Str := "groups-container".data
def sGroup : Str := "group".data
def sGroupTitle : Str := "group__title".data
def sGroupMembers : Str := "group__members".data
def sCardsGrid : Str := "cards-grid".data
def sTarjetaDe : Str := "Tarjeta de ".data
def sExpandir : Str := "Expandir".data
def sExpandirLabel : Str := "Expandir la tarjeta de ".data
def sESColon : Str := "ES: ".data
def sENColon : Str := "EN: ".data
def sMiembros : Str := "Miembros: ".data

/-- `renderCard(cardData)`.  The `img` element's `src` is first set to
`assets/images/${cardData.img}` and then swapped to the result of the
asynchronous `safeImageUrl` probe; `resolve` gives the settled value of
that probe, so the tree below is the card as eventually displayed. -/
def renderCard (resolve : Str → Str) (cardData : Card) : Dom :=
  let wordFront := createEl sH4 { className := some sCardWord, textContent := some cardData.es }
  let imageFront := createEl sImg
    { className := some sCardImage,
      attributes := [(sSrcKey, resolve (sAssetsImages ++ cardData.img)), (sAltKey, cardData.es)] }
  let front := createEl sDiv { className := some sCardFaceFront, children := [wordFront, imageFront] }
  let wordBack := createEl sH4 { className := some sCardWord, textContent := some cardData.en }
  let defEs := createEl sP { className := some sCardDefinition, textContent := some (sESColon ++ cardData.def_es) }
  let defEn := createEl sP { className := some sCardDefinition, textContent := some (sENColon ++ cardData.def_en) }
  let expandBtn := createEl sButton
    { className := some sCardButton, textContent := some sExpandir,
      attributes := [(sAriaLabelKey, sExpandirLabel ++ cardData.es)] }
  let actions := createEl sDiv { className := some sCardActions, children := [expandBtn] }
  let back := createEl sDiv { className := some sCardFaceBack, children := [wordBack, defEs, defEn, actions] }
  let inner := createEl sDiv { className := some sCardInner, children := [front, back] }
  createEl sDiv
    { className := some sCard,
      attributes := [(sTabindexKey, sZero), (sRoleKey, sButtonRole), (sAriaLabelKey, sTarjetaDe ++ cardData.es)],
      children := [inner] }

/-- `renderGroup(group)`: title, the members line when `group.members` is
non-empty, then the cards grid. -/
def renderGroup (resolve : Str → Str) (group : Group) : Dom :=
  let titleEl := createEl sH3 { className := some sGroupTitle, textContent := some group.title }
  let membersPart :=
    if group.members.isEmpty then ([] : List Dom)
    else [createEl sP { textContent := some (sMiembros ++ List.intercalate sCommaSpace group.members),
                        className := some sGroupMembers }]
  let cardsGrid := createEl sDiv { className := some sCardsGrid, children := group.cards.map (renderCard resolve) }
  createEl sSection { className := some sGroup, id := some group.id,
                      children := [titleEl] ++ membersPart ++ [cardsGrid] }

/-- The subject subtree appended to `#subject-area` for a found subject. -/
def renderSubjectDom (resolve : Str → Str) (subject : Materia) : Dom :=
  let titleEl := createEl sH2 { className := some sSubjectTitle,
                                textContent := some (subject.code ++ sDash ++ subject.title) }
  let descPart :=
    if subject.description.isEmpty then ([] : List Dom)
    else [createEl sP { className := some sSubjectDescription, textContent := some subject.description }]
  let header := createEl sDiv { className := some sSubjectHeader, children := [titleEl] ++ descPart }
  let groupsContainer := createEl sDiv { className := some sGroupsContainer,
                                         children := subject.groups.map (renderGroup resolve) }
  createEl sDiv { className := some sSubject, children := [header, groupsContainer] }

/-- `renderMateria(subjectId)`: `none` when the subject is not found (the
function logs to the console and returns without touching the DOM). -/
def renderMateria (resolve : Str → Str) (subjectId : Str) (glossaryData : List Materia) : Option Dom :=
  (glossaryData.find? fun s => s.id == subjectId).map (renderSubjectDom resolve)

/-- Effect of `renderMateria` on the `#subject-area` children: replaced by
the subject subtree when found, left untouched otherwise. -/
def renderIntoArea (resolve : Str → Str) (subjectId : Str) (glossaryData : List Materia)
    (area : List Dom) : List Dom :=
  match renderMateria resolve subjectId glossaryData with
  | none => area
  | some d => [d]

/-! ### Loader (`loadData`, lines 117-131) -/

def errLoadMsg : Str := "<p class=\"error-message\">Error al cargar el contenido. Por favor, inténtelo de nuevo más tarde.</p>".data

/-- Module state touched by `loadData`: the `glossaryData` cache, the
`#subject-area` contents, and a count of fetches performed. -/
structure St where
  glossaryData : List Materia
  subjectArea : List Dom
  fetches : Nat

def initSt : St := { glossaryData := [], subjectArea := [], fetches := 0 }

/-- `loadData()`: always fetches (`w` is the fetch outcome; `none` covers a
network error, a non-ok status and a JSON parse failure).  On success the
data is cached and returned; on failure an error placeholder is written
into the subject area and `[]` is returned. -/
def loadData (w : Option (List Materia)) (s : St) : St × List Materia :=
  match w with
  | some data => ({ s with glossaryData := data, fetches := s.fetches + 1 }, data)
  | none => ({ s with subjectArea := [Dom.raw errLoadMsg], fetches := s.fetches + 1 }, [])

end V1

/-! ## Variant V2: first IIFE of `src/unnamed/part_000` (lines 1-537) -/

namespace V2

/-! ### Search (`searchGlossary` lines 399-436, `attachAutocomplete` lines 464-500) -/

def sMateriaType : Str := "materia".data
def sGrupoType : Str := "grupo".data
def sTarjetaType : Str := "tarjeta".data
def sGrupoQuote : Str := "Grupo: \"".data
def sQuoteEn : Str := "\" en ".data
def sTerminoQuote : Str := "Término: \"".data

/-- A result object `{type, id, text}` pushed by `searchGlossary` (`id` is
always the materia id, used for navigation). -/
structure Match where
  type : Str
  id : Str
  text : Str
deriving DecidableEq

/-- `searchGlossary(query)`: lowercase the query, scan materias, groups and
cards by substring containment, and cap the result list at the first 10
entries.  No deduplication is performed. -/
def searchGlossary (query : Str) (glossaryData : List Materia) : List Match :=
  let lowerQuery := lower query
  (glossaryData.flatMap fun materia =>
    (if containsL (lower materia.code) lowerQuery || containsL (lower materia.title) lowerQuery then
      [{ type := sMateriaType, id := materia.id, text := materia.code ++ sDash ++ materia.title }]
    else [])
    ++ materia.groups.flatMap fun group =>
      (if containsL (lower group.title) lowerQuery then
        [{ type := sGrupoType, id := materia.id,
           text := sGrupoQuote ++ group.title ++ sQuoteEn ++ materia.code }]
      else [])
      ++ group.cards.filterMap fun card =>
        if containsL (lower card.es) lowerQuery || containsL (lower card.en) lowerQuery then
          some { type := sTarjetaType, id := materia.id,
                 text := sTerminoQuote ++ card.es ++ sQuoteEn ++ materia.code }
        else none).take 10

/-- The debounced input handler of `attachAutocomplete`: trim the raw value,
search only when more than 2 characters remain, otherwise clear the list
(`updateAutocompleteList([])`). -/
def debouncedSearch (rawValue : Str) (glossaryData : List Materia) : List Match :=
  let query := trim rawValue
  if 2 < query.length then searchGlossary query glossaryData else []

/-! ### Image resolution (`safeImageUrl`, lines 95-104) -/

/-- `safeImageUrl(path)` of this variant performs no existence check at all:
it always returns `assets/images/` followed by the path.  (The `ext` and
`webpPath` locals of the source are dead code and are not modelled.) -/
def safeImageUrl (path : Str) : Str := sAssetsImages ++ path

/-! ### Renderer (`renderCard`/`renderGroup`/`renderWindow`/`renderMateria`,
lines 151-289).  `innerHTML` template-literal assignments are modelled as
`Dom.raw` children holding the interpolated string (template whitespace
normalized); the `dataset.cardData` JSON payload used by the modal is not
modelled, no claim depends on it. -/

def sCard : Str := "card".data
def sCardFaceFront : Str := "card-face card-front".data
def sCardFaceBack : Str := "card-face card-back".data
def sGroupSection : Str := "group-section".data
def sGroupSectionHeader : Str := "group-section__header".data
def sGroupSectionCards : Str := "group-section__cards".data
def sMateriaContainer : Str := "materia-container".data
def sMateriaHeader : Str := "materia-header".data
def sMateriaTabs : Str := "materia__tabs".data
def sMateriaTabButton : Str := "materia__tab-button".data
def sMateriaTabContent : Str := "materia__tab-content".data
def sMateriaWindows : Str := "materia__windows".data
def sWindowDash : Str := "window-".data
def sTabDash : Str := "tab-".data
def sNotFoundMsg : Str := "<p>Lo sentimos, la materia no fue encontrada.</p>".data

def sFrontA : Str := "<h4 class=\"card-front__word\">".data
def sFrontB : Str := "</h4><img class=\"card-front__thumbnail\" src=\"assets/images/".data
def sFrontC : Str := "\" alt=\"".data
def sFrontD : Str := "\"><div class=\"card__controls\"><button class=\"card__btn js-flip-btn\" aria-label=\"Girar tarjeta\">Girar</button><button class=\"card__btn js-expand-btn\" aria-label=\"Ampliar información\">Ampliar</button></div>".data

def cardFrontHTML (card : Card) : Str :=
  sFrontA ++ card.es ++ sFrontB ++ card.img ++ sFrontC ++ card.es ++ sFrontD

def sBackA : Str := "<h4 class=\"card-back__word\">".data
def sBackB : Str := "</h4><img class=\"card-back__image\" src=\"assets/images/".data
def sBackC : Str := "\"><p class=\"card-back__def-es\">".data
def sBackD : Str := "</p><p class=\"card-back__def-en\">".data
def sBackE : Str := "</p><div class=\"card__controls\"><button class=\"card__btn js-flip-btn\" aria-label=\"Girar de nuevo\">Girar</button><button class=\"card__btn js-expand-btn\" aria-label=\"Ampliar información\">Ampliar</button></div>".data

def cardBackHTML (card : Card) : Str :=
  sBackA ++ card.en ++ sBackB ++ card.img ++ sFrontC ++ card.es ++ sBackC ++ card.def_es
    ++ sBackD ++ card.def_en ++ sBackE

/-- `renderCard(card, slug)` (`slug` is accepted but unused by the source body). -/
def renderCard (card : Card) (slug : Str) : Dom :=
  let _ := slug
  createEl sDiv
    { className := some sCard, attributes := [(sTabIndexKeyCamel, sZero)],
      children :=
        [createEl sDiv { className := some sCardFaceFront, children := [Dom.raw (cardFrontHTML card)] },
         createEl sDiv { className := some sCardFaceBack, children := [Dom.raw (cardBackHTML card)] }] }

def sH3Open : Str := "<h3>".data
def sH3CloseSpan : Str := "</h3><span>Grupo: ".data
def sSpanClose : Str := "</span>".data

def groupHeaderHTML (group : Group) : Str :=
  sH3Open ++ group.title ++ sH3CloseSpan ++ List.intercalate sCommaSpace group.members ++ sSpanClose

/-- `renderGroup(group, slug)`: header (raw `innerHTML`) then the cards. -/
def renderGroup (group : Group) (slug : Str) : Dom :=
  createEl sSection
    { className := some sGroupSection,
      children :=
        [createEl sDiv { className := some sGroupSectionHeader, children := [Dom.raw (groupHeaderHTML group)] },
         createEl sDiv { className := some sGroupSectionCards,
                         children := group.cards.map fun card => renderCard card slug }] }

/-- `renderWindow(windowData, materiaData)`: a `tabpanel` div holding, in the
order of `windowData.groups`, the rendered groups of the materia whose id is
referenced (unresolvable ids are skipped). -/
def renderWindow (windowData : Window) (materiaData : Materia) : Dom :=
  createEl sDiv
    { id := some (sWindowDash ++ windowData.id), className := some sMateriaTabContent,
      attributes := [(sRoleKey, sTabpanelRole)],
      children :=
        windowData.groups.filterMap fun groupId =>
          (materiaData.groups.find? fun g => g.id == groupId).map fun g =>
            renderGroup g materiaData.id }

/-- One tab button of the `forEach((windowData, index))` loop:
`aria-selected` is `'true'` exactly for index 0. -/
def tabButton (index : Nat) (windowData : Window) : Dom :=
  createEl sButton
    { className := some sMateriaTabButton, id := some (sTabDash ++ windowData.id),
      textContent := some windowData.title,
      attributes := [(sRoleKey, sTabRole),
                     (sAriaControlsKey, sWindowDash ++ windowData.id),
                     (sAriaSelectedKey, if index == 0 then sTrue else sFalse)] }

/-- The tab buttons produced by the `forEach` loop, starting at `index`. -/
def tabsFrom (index : Nat) : List Window → List Dom
  | [] => []
  | w :: ws => tabButton index w :: tabsFrom (index + 1) ws

def setAriaHiddenFalse : Dom → Dom
  | .el t c a cs => .el t c (a ++ [(sAriaHiddenKey, sFalse)]) cs
  | d => d

/-- `windowsContainer.querySelector('.materia__tab-content').setAttribute('aria-hidden','false')`:
only the first panel is marked visible. -/
def revealFirst : List Dom → List Dom
  | [] => []
  | p :: ps => setAriaHiddenFalse p :: ps

def sH1Open : Str := "<h1>".data
def sH1CloseP : Str := "</h1><p>".data
def sPClose : Str := "</p>".data

def headerHTML (materia : Materia) : Str :=
  sH1Open ++ materia.code ++ sDash ++ materia.title ++ sH1CloseP ++ materia.description ++ sPClose

def headerEl (materia : Materia) : Dom :=
  createEl sHeaderTag { className := some sMateriaHeader, children := [Dom.raw (headerHTML materia)] }

def tabsEl (ws : List Window) : Dom :=
  createEl sDiv { className := some sMateriaTabs, attributes := [(sRoleKey, sTablistRole)],
                  children := tabsFrom 0 ws }

def windowsEl (materia : Materia) (ws : List Window) : Dom :=
  createEl sDiv { className := some sMateriaWindows,
                  children := revealFirst (ws.map fun w => renderWindow w materia) }

def flatChildren (materia : Materia) : List Dom :=
  headerEl materia :: materia.groups.map fun g => renderGroup g materia.id

/-- The `materia-container` subtree built by `renderMateria` for a found
materia: header, then either tab buttons plus one panel per window, or all
groups as one flat sequence when `windows` is absent or empty. -/
def renderMateriaBody (materia : Materia) : Dom :=
  match materia.windows with
  | some ws =>
    if 0 < ws.length then
      createEl sDiv { className := some sMateriaContainer,
                      children := [headerEl materia, tabsEl ws, windowsEl materia ws] }
    else
      createEl sDiv { className := some sMateriaContainer, children := flatChildren materia }
  | none => createEl sDiv { className := some sMateriaContainer, children := flatChildren materia }

/-- `renderMateria(materiaId)` as the resulting children of `#dynamic-content`:
a "not found" placeholder for an unknown id, the materia subtree otherwise.
(The page-metadata update is a side effect outside this model.) -/
def renderMateria (materiaId : Str) (glossaryData : List Materia) : List Dom :=
  match glossaryData.find? fun m => m.id == materiaId with
  | none => [Dom.raw sNotFoundMsg]
  | some materia => [renderMateriaBody materia]

/-! ### Loader (`loadData`, lines 126-139) -/

def errLoadMsg : Str := "<p>Error al cargar el contenido. Por favor, revisa la consola para más detalles.</p>".data

structure St where
  glossaryData : List Materia
  dynamicContent : List Dom
  fetches : Nat

def initSt : St := { glossaryData := [], dynamicContent := [], fetches := 0 }

/-- `loadData()`: always fetches; on success the module cache is set, on
failure an error placeholder is written into `#dynamic-content` (the cache
keeps its previous value, `[]` at startup). -/
def loadData (w : Option (List Materia)) (s : St) : St :=
  match w with
  | some data => { s with glossaryData := data, fetches := s.fetches + 1 }
  | none => { s with dynamicContent := [Dom.raw errLoadMsg], fetches := s.fetches + 1 }

end V2

/-! ## Variant V3: second IIFE of `src/unnamed/part_000` (lines 538-1005) -/

namespace V3

/-! ### Search (`handleSearch`, lines 778-805) -/

def sEnParen : Str := " (en ".data
def sParenClose : Str := ")".data
def sSlashSep : Str := " / ".data

/-- A result object pushed by `handleSearch`:
`{type:'materia', text, id}`, `{type:'grupo', text, materiaId, groupId}` or
`{type:'tarjeta', text, materiaId, groupId, cardId}`. -/
inductive Match where
  | materiaM (text : Str) (id : Str)
  | grupoM (text : Str) (materiaId : Str) (groupId : Str)
  | tarjetaM (text : Str) (materiaId : Str) (groupId : Str) (cardId : Str)
deriving DecidableEq

def Match.textOf : Match → Str
  | .materiaM t _ => t
  | .grupoM t _ _ => t
  | .tarjetaM t _ _ _ => t

/-- Inner card loop: push a card result when a term contains the query and no
already-accumulated result has text equal to `card.es` (note: pushed card
texts are `es / en`, so this guard compares against a different format). -/
def cardStep (query : Str) (materia : Materia) (group : Group) (acc : List Match) (card : Card) : List Match :=
  if (containsL (lower card.es) query || containsL (lower card.en) query)
      && !(acc.any fun r => r.textOf == card.es) then
    acc ++ [Match.tarjetaM (card.es ++ sSlashSep ++ card.en) materia.id group.id card.id]
  else acc

/-- Group loop body: push a group result when its title contains the query and
no accumulated result has text equal to `group.title`, then fold the cards. -/
def groupStep (query : Str) (materia : Materia) (acc : List Match) (group : Group) : List Match :=
  let acc :=
    if containsL (lower group.title) query && !(acc.any fun r => r.textOf == group.title) then
      acc ++ [Match.grupoM (group.title ++ sEnParen ++ materia.title ++ sParenClose) materia.id group.id]
    else acc
  group.cards.foldl (cardStep query materia group) acc

/-- Materia loop body: push a materia result on a title/code hit, then fold
its groups. -/
def materiaStep (query : Str) (acc : List Match) (materia : Materia) : List Match :=
  let acc :=
    if containsL (lower materia.title) query || containsL (lower materia.code) query then
      acc ++ [Match.materiaM (materia.code ++ sDash ++ materia.title) materia.id]
    else acc
  materia.groups.foldl (groupStep query materia) acc

/-- The result list handed to `renderSearchResults`: the accumulated matches,
capped by `results.slice(0, 10)`. -/
def handleSearchResults (query : Str) (glossaryData : List Materia) : List Match :=
  (glossaryData.foldl (materiaStep query) []).take 10

/-- The `handleSearch` input handler.  The module cache `glossaryData` is
`null` until the first successful load; after the minimum-length check the
handler dereferences it (`glossaryData.forEach`), throwing a `TypeError`
when it is still `null`. -/
def handleSearch (glossaryData : Option (List Materia)) (rawValue : Str) :
    Except JsError (List Match) :=
  let query := trim (lower rawValue)
  if query.length < 2 then Except.ok []
  else
    match glossaryData with
    | none => Except.error JsError.typeError
    | some doc => Except.ok (handleSearchResults query doc)

/-! ### Renderer image fallback (`renderCard`, line 683) -/

/-- The effective `src` of a card image: the inline
`onerror="this.src='assets/images/placeholder.png'; ..."` handler swaps a
failing image to the placeholder, so the settled source is the raw path when
the image loads (`imgOk`) and the placeholder otherwise. -/
def effectiveImgSrc (imgOk : Str → Bool) (imgPath : Str) : Str :=
  if imgOk imgPath then imgPath else sPlaceholderPath

/-! ### Renderer (`renderMateria`/`renderGroup`/`renderCard`, lines 601-701).
This variant builds one HTML template-literal string and assigns it to
`DOM.dynamicContentArea.innerHTML`; the string is modelled piecewise with
template whitespace normalized.  The `data-card='...'` payload of the
expand buttons (an `encodeURIComponent`-ed JSON serialization consumed by
the modal) is not modelled, no claim depends on it.  The page-metadata
update on render is a side effect outside this model. -/

def sCardA : Str := "<div class=\"card\" role=\"region\" aria-label=\"Tarjeta de estudio para ".data
def sCardB : Str := "\"><div class=\"card__inner\"><div class=\"card__front\"><h4 class=\"card__term\">".data
def sCardC : Str := "</h4><img src=\"".data
def sCardD : Str := "\" alt=\"".data
def sCardE : Str := "\" class=\"card__thumbnail\" loading=\"lazy\" onerror=\"this.src=\x27assets/images/placeholder.png\x27; this.onerror=null;\"><div class=\"card__actions\"><button class=\"card__btn js-flip-btn\" aria-label=\"Girar tarjeta\">Girar</button><button class=\"card__btn js-expand-btn\" aria-label=\"Ampliar tarjeta\">Ampliar</button></div></div><div class=\"card__back\"><h4 class=\"card__term card__term--en\">".data
def sCardF : Str := "</h4><p class=\"card__def\"><strong>ES:</strong> ".data
def sCardG : Str := "...</p><p class=\"card__def\"><strong>EN:</strong> ".data
def sCardH : Str := "...</p><div class=\"card__actions\"><button class=\"card__btn js-flip-btn\" aria-label=\"Girar tarjeta\">Girar</button><button class=\"card__btn js-expand-btn\" aria-label=\"Ampliar tarjeta\">Ampliar</button></div></div></div></div>".data

/-- `renderCard(card, group)`: the card template (front face: term, image
with the `onerror` placeholder fallback, controls; back face: English term
and both definitions truncated to their first 50 characters).  The `group`
argument is accepted but unused by the source body. -/
def renderCard (card : Card) (group : Group) : Str :=
  let _ := group
  let imgPath := sAssetsImages ++ card.img
  sCardA ++ card.es ++ sCardB ++ card.es ++ sCardC ++ imgPath ++ sCardD ++ card.es ++ sCardE
    ++ card.en ++ sCardF ++ card.def_es.take 50 ++ sCardG ++ card.def_en.take 50 ++ sCardH

def sGroupA : Str := "<section class=\"materia__group\" id=\"".data
def sGroupB : Str := "\"><h3 class=\"materia__group-title\">".data
def sGroupC : Str := "</h3><div class=\"cards-grid\">".data
def sGroupD : Str := "</div></section>".data

/-- `renderGroup(group)`: group section with title and the concatenated
(`join('')`) card templates. -/
def renderGroup (group : Group) : Str :=
  let cardsHTML := (group.cards.map fun card => renderCard card group).flatten
  sGroupA ++ group.id ++ sGroupB ++ group.title ++ sGroupC ++ cardsHTML ++ sGroupD

def sTabA : Str := "<button class=\"materia__tab ".data
def sTabActive : Str := "materia__tab--active".data
def sTabB : Str := "\" role=\"tab\" aria-selected=\"".data
def sTabC : Str := "\" aria-controls=\"window-".data
def sTabD : Str := "\" data-target=\"window-".data
def sTabE : Str := "\">".data
def sTabF : Str := "</button>".data

/-- One tab button of the `windows.map((window, index) => ...)` template:
the active class and `aria-selected="${index === 0}"` hold for index 0. -/
def tabHTML (index : Nat) (w : Window) : Str :=
  sTabA ++ (if index == 0 then sTabActive else []) ++ sTabB
    ++ (if index == 0 then sTrue else sFalse) ++ sTabC ++ w.id ++ sTabD ++ w.id
    ++ sTabE ++ w.title ++ sTabF

/-- `windowsHTML`: the indexed map over `materia.windows`, joined with `''`. -/
def tabsHTMLFrom (index : Nat) : List Window → Str
  | [] => []
  | w :: ws => tabHTML index w ++ tabsHTMLFrom (index + 1) ws

def sWinA : Str := "<div id=\"window-".data
def sWinB : Str := "\" class=\"materia__window ".data
def sWinActive : Str := "materia__window--active".data
def sWinC : Str := "\" role=\"tabpanel\">".data
def sWinD : Str := "</div>".data

/-- One `tabpanel` of `contentHTML`: the groups of the materia whose ids are
referenced by `window.groups` (in `materia.groups` order, via `filter` +
`includes`), with the active class on index 0. -/
def windowHTML (materia : Materia) (index : Nat) (w : Window) : Str :=
  let groupsInWindow := materia.groups.filter fun g => w.groups.contains g.id
  let groupsHTML := (groupsInWindow.map renderGroup).flatten
  sWinA ++ w.id ++ sWinB ++ (if index == 0 then sWinActive else []) ++ sWinC
    ++ groupsHTML ++ sWinD

/-- `contentHTML`: the indexed map over `materia.windows`, joined with `''`. -/
def windowsContentFrom (materia : Materia) (index : Nat) : List Window → Str
  | [] => []
  | w :: ws => windowHTML materia index w ++ windowsContentFrom materia (index + 1) ws

def sMatA : Str := "<article class=\"materia\" id=\"".data
def sMatB : Str := "\"><header class=\"materia__header\"><span class=\"materia__code\">".data
def sMatC : Str := "</span><h2 class=\"materia__title\">".data
def sMatD : Str := "</h2><p class=\"materia__description\">".data
def sMatE : Str := "</p></header><div class=\"materia__tabs\" role=\"tablist\">".data
def sMatF : Str := "</div><div class=\"materia__content\">".data
def sMatG : Str := "</div></article>".data

/-- The `materiaHTML` template for a materia with windows sequence `ws`. -/
def materiaHTML (materia : Materia) (ws : List Window) : Str :=
  sMatA ++ materia.id ++ sMatB ++ materia.code ++ sMatC ++ materia.title ++ sMatD
    ++ materia.description ++ sMatE ++ tabsHTMLFrom 0 ws ++ sMatF
    ++ windowsContentFrom materia 0 ws ++ sMatG

/-- `renderMateria(materiaId)` as its effect on `#dynamic-content-area`.
An unknown id logs to the console and returns without touching the area.
For a found materia the function evaluates `materia.windows.map(...)`
unconditionally: when the subject has no `windows` field this dereferences
`undefined` and throws a `TypeError`; otherwise the area is replaced by the
assembled `materiaHTML` string. -/
def renderMateria (materiaId : Str) (glossaryData : List Materia) (area : List Dom) :
    Except JsError (List Dom) :=
  match glossaryData.find? fun m => m.id == materiaId with
  | none => Except.ok area
  | some materia =>
    match materia.windows with
    | none => Except.error JsError.typeError
    | some ws => Except.ok [Dom.raw (materiaHTML materia ws)]

/-! ### Loader (`loadData`, lines 575-591) -/

def errLoadMsg : Str := "<p class=\"error\">No se pudo cargar el contenido. Por favor, intente de nuevo más tarde.</p>".data

/-- Module state: `glossaryData` starts as `null` (`none`) and is only
assigned on a successful fetch. -/
structure St where
  glossaryData : Option (List Materia)
  dynamicContentArea : List Dom
  fetches : Nat

def initSt : St := { glossaryData := none, dynamicContentArea := [], fetches := 0 }

/-- `loadData()`: memoized — when the cache is already populated it is
returned without a fetch.  On a failed fetch an error placeholder is
rendered and `[]` is returned, but the cache stays `null`. -/
def loadData (w : Option (List Materia)) (s : St) : St × List Materia :=
  match s.glossaryData with
  | some d => (s, d)
  | none =>
    match w with
    | some d => ({ s with glossaryData := some d, fetches := s.fetches + 1 }, d)
    | none => ({ s with dynamicContentArea := [Dom.raw errLoadMsg], fetches := s.fetches + 1 }, [])

end V3

/-! ## Sample data used by witnesses and counterexamples -/

def sC1 : Str := "c1".data
def sHola : Str := "hola".data
def sHello : Str := "hello".data
def sSaludo : Str := "saludo".data
def sGreeting : Str := "greeting".data
def sC1png : Str := "c1.png".data
def sG1 : Str := "G1".data
def sBasics : Str := "Basics".data
def sS1 : Str := "S1".data
def s101 : Str := "101".data
def sIntro : Str := "Intro".data
def sMissing : Str := "missing".data
def sMissingPng : Str := "missing.png".data
def sA : Str := "a".data
def sAb : Str := "ab".data
def sW1 : Str := "W1".data
def sWinTitle : Str := "Ventana 1".data

/-- The example document of spec §8. -/
def cardHola : Card :=
  { id := sC1, es := sHola, en := sHello, def_es := sSaludo, def_en := sGreeting, img := sC1png }

def groupG1 : Group := { id := sG1, title := sBasics, members := [], cards := [cardHola] }

def subjS1 : Materia :=
  { id := sS1, code := s101, title := sIntro, description := [], groups := [groupG1], windows := none }

def doc1 : List Materia := [subjS1]

/-- A subject defining one window over `G1`. -/
def winW1 : Window := { id := sW1, title := sWinTitle, groups := [sG1] }

def subjWin : Materia := { subjS1 with windows := some [winW1] }

/-- Eleven distinct subjects whose titles all contain `ab`. -/
def mkAbMateria (n : Str) : Materia :=
  { id := n, code := n, title := sAb, description := [], groups := [], windows := none }

def idsC2 : List Str :=
  ["m1".data, "m2".data, "m3".data, "m4".data, "m5".data, "m6".data,
   "m7".data, "m8".data, "m9".data, "m10".data, "m11".data]

def docC2 : List Materia := idsC2.map mkAbMateria

/-- The identity image resolution (every probe succeeds). -/
def resolveIdFn : Str → Str := fun p => p

/-- Image resolution where every probe failed. -/
def resolveAllPlaceholder : Str → Str := fun _ => sPlaceholderPath

/-- A probe for which every image is missing. -/
def probeFail : Str → Bool := fun _ => false

/-- A concrete image-cache state with one cached entry. -/
def cachedImgState : V1.ImgState :=
  { cache := fun q => if q = sC1png then some sPlaceholderPath else none, probes := 5 }

/-! ## Specification predicates -/

/-- A V1 match arises from a case-insensitive substring hit of the query in a
source field of the matched entity. -/
def SoundV1 (query : Str) : V1.Match → Prop
  | .subjectM m => containsL (lower m.title) query = true ∨ containsL (lower m.code) query = true
  | .groupM g _ => containsL (lower g.title) query = true
  | .cardM c _ _ => containsL (lower c.es) query = true ∨ containsL (lower c.en) query = true

/-- A V3 match arises from an entity of the document one of whose source
fields contains the query case-insensitively, and its display text and
navigation ids are derived from that entity. -/
def SoundV3 (query : Str) (doc : List Materia) : V3.Match → Prop
  | .materiaM text mid => ∃ m ∈ doc, m.id = mid ∧ text = m.code ++ sDash ++ m.title
      ∧ (containsL (lower m.title) query = true ∨ containsL (lower m.code) query = true)
  | .grupoM text materiaId groupId => ∃ m ∈ doc, ∃ g ∈ m.groups, m.id = materiaId
      ∧ g.id = groupId ∧ text = g.title ++ V3.sEnParen ++ m.title ++ V3.sParenClose
      ∧ containsL (lower g.title) query = true
  | .tarjetaM text materiaId groupId cardId => ∃ m ∈ doc, ∃ g ∈ m.groups, ∃ c ∈ g.cards,
      m.id = materiaId ∧ g.id = groupId ∧ c.id = cardId ∧ text = c.es ++ V3.sSlashSep ++ c.en
      ∧ (containsL (lower c.es) query = true ∨ containsL (lower c.en) query = true)

/-- Every value stored in the V1 image cache is either its own key or the
placeholder path. -/
def CacheWF (c : Str → Option Str) : Prop :=
  ∀ p v, c p = some v → v = p ∨ v = sPlaceholderPath

/-! # Theorems -/

/-! ## Generic list helper lemmas -/

theorem dedupFirstAux_subset [DecidableEq α] (l : List α) :
    ∀ (seen : List α) (a : α), a ∈ dedupFirstAux seen l → a ∈ l := by
  induction l with
  | nil => intro seen a h; simp [dedupFirstAux] at h
  | cons b t ih =>
    intro seen a h
    rw [dedupFirstAux] at h
    by_cases hb : b ∈ seen
    · rw [if_pos hb] at h
      exact List.mem_cons_of_mem _ (ih seen a h)
    · rw [if_neg hb] at h
      rcases List.mem_cons.mp h with rfl | ht
      · exact List.mem_cons_self _ _
      · exact List.mem_cons_of_mem _ (ih _ a ht)

theorem dedupFirstAux_not_seen [DecidableEq α] (l : List α) :
    ∀ (seen : List α) (a : α), a ∈ dedupFirstAux seen l → a ∉ seen := by
  induction l with
  | nil => intro seen a h; simp [dedupFirstAux] at h
  | cons b t ih =>
    intro seen a h
    rw [dedupFirstAux] at h
    by_cases hb : b ∈ seen
    · rw [if_pos hb] at h; exact ih seen a h
    · rw [if_neg hb] at h
      rcases List.mem_cons.mp h with rfl | ht
      · exact hb
      · intro hseen
        exact ih _ a ht (List.mem_cons_of_mem _ hseen)

theorem dedupFirstAux_nodup [DecidableEq α] (l : List α) :
    ∀ seen : List α, (dedupFirstAux seen l).Nodup := by
  induction l with
  | nil => intro seen; simp [dedupFirstAux]
  | cons b t ih =>
    intro seen
    rw [dedupFirstAux]
    by_cases hb : b ∈ seen
    · rw [if_pos hb]; exact ih seen
    · rw [if_neg hb]
      refine List.nodup_cons.mpr ⟨?_, ih (b :: seen)⟩
      intro hmem
      exact dedupFirstAux_not_seen t (b :: seen) b hmem (List.mem_cons_self b seen)

theorem mem_ite_singleton {c : Prop} [Decidable c] {x r : α}
    (h : r ∈ (if c then [x] else [])) : c ∧ r = x := by
  by_cases hc : c
  · rw [if_pos hc] at h
    exact ⟨hc, List.mem_singleton.mp h⟩
  · rw [if_neg hc] at h
    exact absurd h (List.not_mem_nil r)

theorem foldl_mem_preserve {P : β → Prop} (f : List β → α → List β)
    (hf : ∀ acc a, (∀ r ∈ acc, P r) → ∀ r ∈ f acc a, P r) :
    ∀ (l : List α) (acc : List β), (∀ r ∈ acc, P r) → ∀ r ∈ l.foldl f acc, P r := by
  intro l
  induction l with
  | nil => intro acc hacc; simpa using hacc
  | cons a l ih =>
    intro acc hacc
    rw [List.foldl_cons]
    exact ih (f acc a) (hf acc a hacc)

/-! ## C1 -/

/-- C1 (amended): each variant has its own threshold below which the search
yields no results, but the thresholds differ and V1 only clears on the empty
query: V1 returns `[]` exactly for the empty input, V2 returns `[]` for every
trimmed query of length at most 2, and V3 returns `ok []` for every query of
length below 2 without touching the data cache. -/
theorem c1_short_query_thresholds :
    (∀ doc : List Materia, V1.handleSearch [] doc = [])
    ∧ (∀ (rawValue : Str) (doc : List Materia),
        (trim rawValue).length ≤ 2 → V2.debouncedSearch rawValue doc = [])
    ∧ (∀ (gd : Option (List Materia)) (rawValue : Str),
        (trim (lower rawValue)).length < 2 → V3.handleSearch gd rawValue = Except.ok []) := by
  refine ⟨?_, ?_, ?_⟩
  · intro doc; rfl
  · intro rawValue doc h
    simp only [V2.debouncedSearch]
    rw [if_neg (by omega)]
  · intro gd rawValue h
    simp only [V3.handleSearch]
    rw [if_pos h]

/-- C1 witness: at the one-character query `"a"` both part_000 variants
return no results. -/
theorem c1_short_query_thresholds_witness :
    V2.debouncedSearch sA doc1 = [] ∧ V3.handleSearch none sA = Except.ok [] :=
  ⟨c1_short_query_thresholds.2.1 sA doc1 (by decide),
   c1_short_query_thresholds.2.2 none sA (by decide)⟩

/-- C1 counterexample: the claim says every query shorter than the minimum
length (2-3 characters) yields an empty result list, but variant V1 searches
the one-character query `"a"` and returns 11 matches on `docC2`. -/
theorem c1_counterexample_v1_searches_one_char :
    (V1.handleSearch sA docC2).length = 11 := by decide

/-! ## C2 -/

/-- C2 (amended): the two part_000 variants cap their result list at 10
matches (with no or ineffective deduplication before the cap), while the
app.js variant collapses duplicate match records (keep-first, by full record
identity) but applies no cap at all. -/
theorem c2_cap_and_dedup_per_variant :
    (∀ (query : Str) (doc : List Materia), (V2.searchGlossary query doc).length ≤ 10)
    ∧ (∀ (query : Str) (doc : List Materia), (V3.handleSearchResults query doc).length ≤ 10)
    ∧ (∀ (rawValue : Str) (doc : List Materia), (V1.handleSearch rawValue doc).Nodup) := by
  refine ⟨?_, ?_, ?_⟩
  · intro query doc
    simp only [V2.searchGlossary]
    rw [List.length_take]
    exact Nat.min_le_left _ _
  · intro query doc
    simp only [V3.handleSearchResults]
    rw [List.length_take]
    exact Nat.min_le_left _ _
  · intro rawValue doc
    simp only [V1.handleSearch]
    split
    · exact List.nodup_nil
    · exact dedupFirstAux_nodup _ _

/-- C2 counterexample: the claim bounds every result list by 10, but variant
V1 returns 11 matches for the query `"ab"` on a document of 11 distinct
subjects whose titles all contain it. -/
theorem c2_counterexample_v1_no_cap :
    10 < (V1.handleSearch sAb docC2).length := by decide

/-! ## C4 -/

/-- C4 (amended): only the V3 loader is memoized — after one successful call
every later call returns the cached document from an unchanged state (hence
without another fetch); the V1 and V2 loaders perform a fetch on every call. -/
theorem c4_memoization_per_variant :
    (∀ (d : List Materia) (w' : Option (List Materia)) (s : V3.St),
        s.glossaryData = none →
        (V3.loadData (some d) s).2 = d
        ∧ V3.loadData w' (V3.loadData (some d) s).1 = ((V3.loadData (some d) s).1, d))
    ∧ (∀ (w : Option (List Materia)) (s : V1.St), (V1.loadData w s).1.fetches = s.fetches + 1)
    ∧ (∀ (w : Option (List Materia)) (s : V2.St), (V2.loadData w s).fetches = s.fetches + 1) := by
  refine ⟨?_, ?_, ?_⟩
  · intro d w' s h
    simp [V3.loadData, h]
  · intro w s; cases w <;> simp [V1.loadData]
  · intro w s; cases w <;> simp [V2.loadData]

/-- C4 witness: loading the example document into the fresh V3 state returns
it, and a second call returns the same document with the state untouched. -/
theorem c4_memoization_per_variant_witness :
    (V3.loadData (some doc1) V3.initSt).2 = doc1
    ∧ V3.loadData none (V3.loadData (some doc1) V3.initSt).1
        = ((V3.loadData (some doc1) V3.initSt).1, doc1) :=
  c4_memoization_per_variant.1 doc1 none V3.initSt rfl

/-- C4 counterexample: the claim says a second `load()` does not fetch again,
but after two successful V1 `loadData` calls the fetch counter is 2. -/
theorem c4_counterexample_v1_refetches :
    ((V1.loadData (some doc1) (V1.loadData (some doc1) V1.initSt).1).1).fetches = 2 := rfl

/-! ## C5 -/

/-- C5 (amended): on an id not present in the document no variant signals a
`NotFoundError` value to its caller (each logs to the console and returns);
variant V1 leaves the content area exactly as it was, while variant V2
replaces the content area with its "not found" placeholder message. -/
theorem c5_unknown_id_behavior :
    (∀ (subjectId : Str) (doc : List Materia) (resolve : Str → Str) (area : List Dom),
        doc.find? (fun s => s.id == subjectId) = none →
        V1.renderIntoArea resolve subjectId doc area = area)
    ∧ (∀ (materiaId : Str) (doc : List Materia),
        doc.find? (fun m => m.id == materiaId) = none →
        V2.renderMateria materiaId doc = [Dom.raw V2.sNotFoundMsg]) := by
  constructor
  · intro subjectId doc resolve area h
    simp [V1.renderIntoArea, V1.renderMateria, h]
  · intro materiaId doc h
    simp [V2.renderMateria, h]

/-- C5 witness: rendering the unknown id `"missing"` over the example
document shows the V2 "not found" placeholder. -/
theorem c5_unknown_id_behavior_witness :
    V2.renderMateria sMissing doc1 = [Dom.raw V2.sNotFoundMsg] :=
  c5_unknown_id_behavior.2 sMissing doc1 rfl

/-- C5 counterexample: the claim requires a "not found" placeholder in place
of subject content, but variant V1 on the unknown id `"missing"` leaves the
(empty) subject area empty — nothing is rendered and no placeholder shown. -/
theorem c5_counterexample_v1_no_placeholder :
    V1.renderIntoArea resolveIdFn sMissing doc1 [] = [] := rfl

/-! ## C9 -/

/-- C9 (code bug): after a failed load, variant V3 does render its
user-visible error placeholder, but the document cache stays `null` instead
of being treated as empty, so the next search of length ≥ 2 dereferences
`null` and throws a `TypeError` — contradicting both the claim and the
loader's own comment ("Retorna un array vacío para evitar errores
posteriores"). -/
theorem c9_failed_load_then_search_throws :
    (V3.loadData none V3.initSt).1.dynamicContentArea = [Dom.raw V3.errLoadMsg]
    ∧ (V3.loadData none V3.initSt).1.glossaryData = none
    ∧ V3.handleSearch (V3.loadData none V3.initSt).1.glossaryData sAb
        = Except.error JsError.typeError :=
  ⟨rfl, rfl, rfl⟩

/-! ## C8 -/

/-- C8 (amended): variant V1's `safeImageUrl` resolves an uncached path whose
probe fails to the fixed placeholder path, and variant V3's card images
settle on the placeholder through their `onerror` handler; variant V2's
`safeImageUrl`, however, performs no probe and always returns
`assets/images/` + path, never the placeholder.  All three resolutions are
total functions: a missing image never raises a page error. -/
theorem c8_image_fallback_per_variant :
    (∀ (probe : Str → Bool) (s : V1.ImgState) (path : Str),
        s.cache path = none → probe path = false →
        (V1.safeImageUrl probe s path).2 = sPlaceholderPath)
    ∧ (∀ (imgOk : Str → Bool) (p : Str), imgOk p = false →
        V3.effectiveImgSrc imgOk p = sPlaceholderPath)
    ∧ (∀ p : Str, V2.safeImageUrl p = sAssetsImages ++ p) := by
  refine ⟨?_, ?_, ?_⟩
  · intro probe s path hc hp
    simp [V1.safeImageUrl, hc, hp]
  · intro imgOk p h
    simp [V3.effectiveImgSrc, h]
  · intro p; rfl

/-- C8 witness: with a probe that fails everywhere, the fresh V1 cache
resolves `c1.png` to the placeholder, as does the V3 error handler. -/
theorem c8_image_fallback_per_variant_witness :
    (V1.safeImageUrl probeFail V1.initImg sC1png).2 = sPlaceholderPath
    ∧ V3.effectiveImgSrc probeFail sMissingPng = sPlaceholderPath :=
  ⟨c8_image_fallback_per_variant.1 probeFail V1.initImg sC1png rfl rfl,
   c8_image_fallback_per_variant.2.1 probeFail sMissingPng rfl⟩

/-- C8 counterexample: the claim says a failing probe falls back to the
placeholder, but variant V2 resolves `missing.png` to
`assets/images/missing.png` regardless of any probe — never the placeholder. -/
theorem c8_counterexample_v2_never_placeholder :
    ¬ V2.safeImageUrl sMissingPng = sPlaceholderPath := by decide


/-! ## C10 -/

theorem cacheWF_safeImageUrl (probe : Str → Bool) (s : V1.ImgState) (path : Str)
    (h : CacheWF s.cache) : CacheWF (V1.safeImageUrl probe s path).1.cache := by
  unfold V1.safeImageUrl
  cases hc : s.cache path with
  | some v => simpa using h
  | none =>
    cases hp : probe path
    · simp only [hp, Bool.false_eq_true, if_false]
      intro p v hpv
      have hpv' : (if p = path then some sPlaceholderPath else s.cache p) = some v := hpv
      by_cases hq : p = path
      · subst hq
        rw [if_pos rfl] at hpv'
        exact Or.inr (Option.some.inj hpv').symm
      · rw [if_neg hq] at hpv'
        exact h p v hpv'
    · simp only [hp, if_true]
      intro p v hpv
      have hpv' : (if p = path then some path else s.cache p) = some v := hpv
      by_cases hq : p = path
      · subst hq
        rw [if_pos rfl] at hpv'
        exact Or.inl (Option.some.inj hpv').symm
      · rw [if_neg hq] at hpv'
        exact h p v hpv'

theorem cacheWF_preloadImages (s : V1.ImgState) (paths : List Str)
    (h : CacheWF s.cache) : CacheWF (V1.preloadImages s paths).cache := by
  unfold V1.preloadImages
  simp only
  induction paths generalizing s with
  | nil => simpa using h
  | cons path rest ih =>
    rw [List.foldl_cons]
    by_cases hf : jsFalsy (s.cache path) = true
    · rw [if_pos hf]
      have : CacheWF fun q => if q = path then some path else s.cache q := by
        intro p v hpv
        have hpv' : (if p = path then some path else s.cache p) = some v := hpv
        by_cases hq : p = path
        · subst hq
          rw [if_pos rfl] at hpv'
          exact Or.inl (Option.some.inj hpv').symm
        · rw [if_neg hq] at hpv'
          exact h p v hpv'
      exact ih { cache := fun q => if q = path then some path else s.cache q, probes := s.probes } this
    · rw [if_neg hf]
      exact ih { cache := s.cache, probes := s.probes } h

theorem cacheWF_runImgOps (probe : Str → Bool) :
    ∀ (ops : List V1.ImgOp) (s : V1.ImgState), CacheWF s.cache →
      CacheWF (V1.runImgOps probe ops s).cache := by
  intro ops
  induction ops with
  | nil => intro s h; simpa [V1.runImgOps] using h
  | cons op rest ih =>
    intro s h
    cases op with
    | safe p =>
      rw [V1.runImgOps]
      exact ih _ (cacheWF_safeImageUrl probe s p h)
    | preload ps =>
      rw [V1.runImgOps]
      exact ih _ (cacheWF_preloadImages s ps h)

/-- C10: over any interleaving of `safeImageUrl` and `preloadImages` runs
from the empty cache, `safeImageUrl` only ever returns the probed path
itself or the fixed placeholder path; a cached path is answered from the
cache with the state untouched (no new probe); `preloadImages` writes raw
paths without ever probing; and which value ends up cached for a path
depends on which writer ran first: with a failing probe, preload-then-probe
caches the raw path while probe-then-preload caches the placeholder. -/
theorem c10_image_cache_invariants :
    (∀ (probe : Str → Bool) (ops : List V1.ImgOp) (p : Str),
        (V1.safeImageUrl probe (V1.runImgOps probe ops V1.initImg) p).2 = p
        ∨ (V1.safeImageUrl probe (V1.runImgOps probe ops V1.initImg) p).2 = sPlaceholderPath)
    ∧ (∀ (probe : Str → Bool) (s : V1.ImgState) (p v : Str),
        s.cache p = some v → V1.safeImageUrl probe s p = (s, v))
    ∧ (∀ (s : V1.ImgState) (paths : List Str), (V1.preloadImages s paths).probes = s.probes)
    ∧ (V1.runImgOps probeFail [V1.ImgOp.preload [sC1png], V1.ImgOp.safe sC1png] V1.initImg).cache sC1png
        = some sC1png
    ∧ (V1.runImgOps probeFail [V1.ImgOp.safe sC1png, V1.ImgOp.preload [sC1png]] V1.initImg).cache sC1png
        = some sPlaceholderPath := by
  refine ⟨?_, ?_, ?_, ?_, ?_⟩
  · intro probe ops p
    have hwf : CacheWF (V1.runImgOps probe ops V1.initImg).cache := by
      refine cacheWF_runImgOps probe ops V1.initImg ?_
      intro q v hqv
      simp [V1.initImg] at hqv
    unfold V1.safeImageUrl
    cases hc : (V1.runImgOps probe ops V1.initImg).cache p with
    | some v =>
      rcases hwf p v hc with rfl | rfl
      · exact Or.inl rfl
      · exact Or.inr rfl
    | none =>
      cases hp : probe p
      · simp [hp]
      · simp [hp]
  · intro probe s p v h
    unfold V1.safeImageUrl
    rw [h]
  · intro s paths; rfl
  · rfl
  · rfl

/-- C10 witness: a concrete state that caches `c1.png` as the placeholder is
answered from the cache, unchanged, even though the entry differs from the
raw path. -/
theorem c10_image_cache_invariants_witness :
    V1.safeImageUrl probeFail cachedImgState sC1png = (cachedImgState, sPlaceholderPath) :=
  c10_image_cache_invariants.2.1 probeFail cachedImgState sC1png sPlaceholderPath rfl

/-! ## C3 -/

theorem foldl_mem_preserve_mem {P : β → Prop} :
    ∀ (l : List α) (f : List β → α → List β),
      (∀ acc a, a ∈ l → (∀ r ∈ acc, P r) → ∀ r ∈ f acc a, P r) →
      ∀ (acc : List β), (∀ r ∈ acc, P r) → ∀ r ∈ l.foldl f acc, P r
  | [], _, _, _, hacc => by simpa using hacc
  | a :: t, f, hf, acc, hacc => by
      rw [List.foldl_cons]
      exact foldl_mem_preserve_mem t f
        (fun acc' b hb hacc' => hf acc' b (List.mem_cons_of_mem _ hb) hacc')
        (f acc a) (hf acc a (List.mem_cons_self _ _) hacc)

theorem soundV1_results (query : Str) (doc : List Materia) :
    ∀ r ∈ V1.results query doc, SoundV1 query r := by
  intro r hr
  simp only [V1.results] at hr
  rw [List.mem_flatMap] at hr
  obtain ⟨subject, _, hr⟩ := hr
  rw [List.mem_append] at hr
  rcases hr with hr | hr
  · obtain ⟨hcond, rfl⟩ := mem_ite_singleton hr
    rw [Bool.or_eq_true] at hcond
    exact hcond
  · rw [List.mem_flatMap] at hr
    obtain ⟨group, _, hr⟩ := hr
    rw [List.mem_append] at hr
    rcases hr with hr | hr
    · obtain ⟨hcond, rfl⟩ := mem_ite_singleton hr
      exact hcond
    · rw [List.mem_filterMap] at hr
      obtain ⟨card, _, heq⟩ := hr
      by_cases hcond : (containsL (lower card.es) query || containsL (lower card.en) query) = true
      · rw [if_pos hcond] at heq
        obtain rfl := Option.some.inj heq
        rw [Bool.or_eq_true] at hcond
        exact hcond
      · rw [if_neg hcond] at heq
        exact absurd heq (by simp)

theorem soundV3_cardStep (query : Str) (doc : List Materia) (materia : Materia) (group : Group)
    (hm : materia ∈ doc) (hg : group ∈ materia.groups) (acc : List V3.Match) (card : Card)
    (hc : card ∈ group.cards) (hacc : ∀ r ∈ acc, SoundV3 query doc r) :
    ∀ r ∈ V3.cardStep query materia group acc card, SoundV3 query doc r := by
  intro r hr
  simp only [V3.cardStep] at hr
  split at hr
  · rw [List.mem_append] at hr
    rcases hr with hr | hr
    · exact hacc r hr
    · obtain rfl := List.mem_singleton.mp hr
      rename_i hcond
      rw [Bool.and_eq_true] at hcond
      have hor := hcond.1
      rw [Bool.or_eq_true] at hor
      exact ⟨materia, hm, group, hg, card, hc, rfl, rfl, rfl, rfl, hor⟩
  · exact hacc r hr

theorem soundV3_groupStep (query : Str) (doc : List Materia) (materia : Materia)
    (hm : materia ∈ doc) (acc : List V3.Match) (group : Group) (hg : group ∈ materia.groups)
    (hacc : ∀ r ∈ acc, SoundV3 query doc r) :
    ∀ r ∈ V3.groupStep query materia acc group, SoundV3 query doc r := by
  intro r hr
  simp only [V3.groupStep] at hr
  refine foldl_mem_preserve_mem group.cards (V3.cardStep query materia group)
    (fun acc' card hcard hacc' => soundV3_cardStep query doc materia group hm hg acc' card hcard hacc')
    _ ?_ r hr
  intro r' hr'
  split at hr'
  · rw [List.mem_append] at hr'
    rcases hr' with hr' | hr'
    · exact hacc r' hr'
    · obtain rfl := List.mem_singleton.mp hr'
      rename_i hcond
      rw [Bool.and_eq_true] at hcond
      exact ⟨materia, hm, group, hg, rfl, rfl, rfl, hcond.1⟩
  · exact hacc r' hr'

theorem soundV3_materiaStep (query : Str) (doc : List Materia) (acc : List V3.Match)
    (materia : Materia) (hm : materia ∈ doc) (hacc : ∀ r ∈ acc, SoundV3 query doc r) :
    ∀ r ∈ V3.materiaStep query acc materia, SoundV3 query doc r := by
  intro r hr
  simp only [V3.materiaStep] at hr
  refine foldl_mem_preserve_mem materia.groups (V3.groupStep query materia)
    (fun acc' group hgroup hacc' => soundV3_groupStep query doc materia hm acc' group hgroup hacc')
    _ ?_ r hr
  intro r' hr'
  split at hr'
  · rw [List.mem_append] at hr'
    rcases hr' with hr' | hr'
    · exact hacc r' hr'
    · obtain rfl := List.mem_singleton.mp hr'
      rename_i hcond
      rw [Bool.or_eq_true] at hcond
      exact ⟨materia, hm, rfl, rfl, hcond⟩
  · exact hacc r' hr'

theorem soundV3_handleSearchResults (query : Str) (doc : List Materia) :
    ∀ r ∈ V3.handleSearchResults query doc, SoundV3 query doc r := by
  intro r hr
  simp only [V3.handleSearchResults] at hr
  have hr' := List.take_subset 10 _ hr
  exact foldl_mem_preserve_mem doc (V3.materiaStep query)
    (fun acc materia hmat hacc => soundV3_materiaStep query doc acc materia hmat hacc)
    [] (by intro r h; exact absurd h (List.not_mem_nil r)) r hr'

/-- C3: every match returned by the search arises from a case-insensitive
substring hit of the query in a source field of the matched entity (subject
title or code, group title, or one of the two card terms) — for variant V1
directly on the record embedded in the match, and for variant V3 through an
entity of the searched document from which both the display text and the
navigation ids derive. -/
theorem c3_match_soundness :
    (∀ (rawValue : Str) (doc : List Materia) (r : V1.Match),
        r ∈ V1.handleSearch rawValue doc → SoundV1 (lower rawValue) r)
    ∧ (∀ (gd : Option (List Materia)) (rawValue : Str) (rs : List V3.Match) (r : V3.Match),
        V3.handleSearch gd rawValue = Except.ok rs → r ∈ rs →
        SoundV3 (trim (lower rawValue)) (gd.getD []) r) := by
  constructor
  · intro rawValue doc r hr
    simp only [V1.handleSearch] at hr
    split at hr
    · exact absurd hr (List.not_mem_nil r)
    · exact soundV1_results (lower rawValue) doc r (dedupFirstAux_subset _ _ r hr)
  · intro gd rawValue rs r heq hr
    cases gd with
    | none =>
      simp only [V3.handleSearch] at heq
      split at heq
      · injection heq with h
        subst h
        exact absurd hr (List.not_mem_nil r)
      · exact absurd heq (by simp)
    | some doc =>
      simp only [V3.handleSearch] at heq
      split at heq
      · injection heq with h
        subst h
        exact absurd hr (List.not_mem_nil r)
      · injection heq with h
        subst h
        exact soundV3_handleSearchResults (trim (lower rawValue)) doc r hr

/-- C3 witness: the spec §8 example — `search("hola", doc)` returns the card
match for `c1`, and its source field `es` indeed contains the query. -/
theorem c3_match_soundness_witness :
    SoundV1 (lower sHola) (V1.Match.cardM cardHola sS1 sG1) :=
  c3_match_soundness.1 sHola doc1 (V1.Match.cardM cardHola sS1 sG1) (by decide)

/-! ## C7 -/

theorem scrubList_append : ∀ (xs ys : List Dom), scrubList (xs ++ ys) = scrubList xs ++ scrubList ys
  | [], _ => rfl
  | x :: xs, ys => by simp [scrubList, scrubList_append xs ys]

mutual
theorem texts_scrubAttrs : ∀ (d : Dom), Dom.texts (scrubAttrs d) = Dom.texts d
  | .el _ _ _ cs => by
      simp only [scrubAttrs, Dom.texts]
      exact textsList_scrubList cs
  | .text _ => rfl
  | .raw _ => rfl
theorem textsList_scrubList : ∀ (ds : List Dom), textsList (scrubList ds) = textsList ds
  | [] => rfl
  | d :: ds => by
      simp only [scrubList, textsList]
      rw [texts_scrubAttrs d, textsList_scrubList ds]
end

mutual
theorem countClass_scrubAttrs (cls : Str) : ∀ (d : Dom), countClass cls (scrubAttrs d) = countClass cls d
  | .el _ _ _ cs => by
      simp only [scrubAttrs, countClass]
      rw [countClassList_scrubList cls cs]
  | .text _ => rfl
  | .raw _ => rfl
theorem countClassList_scrubList (cls : Str) :
    ∀ (ds : List Dom), countClassList cls (scrubList ds) = countClassList cls ds
  | [] => rfl
  | d :: ds => by
      simp only [scrubList, countClassList]
      rw [countClass_scrubAttrs cls d, countClassList_scrubList cls ds]
end

theorem scrub_renderCard (r r' : Str → Str) (c : Card) :
    scrubAttrs (V1.renderCard r c) = scrubAttrs (V1.renderCard r' c) := by
  simp [V1.renderCard, createEl, scrubAttrs, scrubList]

theorem scrubList_map_renderCard (r r' : Str → Str) :
    ∀ (cards : List Card),
      scrubList (cards.map (V1.renderCard r)) = scrubList (cards.map (V1.renderCard r'))
  | [] => rfl
  | c :: cs => by
      simp only [List.map, scrubList]
      rw [scrub_renderCard r r' c, scrubList_map_renderCard r r' cs]

theorem scrub_renderGroup (r r' : Str → Str) (g : Group) :
    scrubAttrs (V1.renderGroup r g) = scrubAttrs (V1.renderGroup r' g) := by
  simp [V1.renderGroup, createEl, scrubAttrs, scrubList, scrubList_append,
        scrubList_map_renderCard r r' g.cards]

theorem scrubList_map_renderGroup (r r' : Str → Str) :
    ∀ (groups : List Group),
      scrubList (groups.map (V1.renderGroup r)) = scrubList (groups.map (V1.renderGroup r'))
  | [] => rfl
  | g :: gs => by
      simp only [List.map, scrubList]
      rw [scrub_renderGroup r r' g, scrubList_map_renderGroup r r' gs]

theorem scrub_renderSubjectDom (r r' : Str → Str) (s : Materia) :
    scrubAttrs (V1.renderSubjectDom r s) = scrubAttrs (V1.renderSubjectDom r' s) := by
  simp [V1.renderSubjectDom, createEl, scrubAttrs, scrubList, scrubList_append,
        scrubList_map_renderGroup r r' s.groups]

/-- C7 (amended): `renderMateria` is deterministic given (id, doc) across
everything that can differ between two calls — in variant V1 the racing
asynchronous image probes (resolution functions `r₁`, `r₂`, which may settle
differently between the two calls): the two subtrees produced for the same
found id have identical text content and an identical number of card
elements; in variant V3 the prior contents of the content area: the two
calls yield the same outcome — but for a found subject without a `windows`
field that common outcome is a thrown `TypeError`, not a DOM subtree. -/
theorem c7_render_deterministic :
    (∀ (subjectId : Str) (doc : List Materia) (r₁ r₂ : Str → Str) (d₁ d₂ : Dom),
      V1.renderMateria r₁ subjectId doc = some d₁ →
      V1.renderMateria r₂ subjectId doc = some d₂ →
      Dom.texts d₁ = Dom.texts d₂ ∧ countClass V1.sCard d₁ = countClass V1.sCard d₂)
    ∧ (∀ (materiaId : Str) (doc : List Materia) (m : Materia) (area₁ area₂ : List Dom),
      doc.find? (fun m' => m'.id == materiaId) = some m →
      V3.renderMateria materiaId doc area₁ = V3.renderMateria materiaId doc area₂
      ∧ (m.windows = none →
          V3.renderMateria materiaId doc area₁ = Except.error JsError.typeError)) := by
  constructor
  · intro subjectId doc r₁ r₂ d₁ d₂ h₁ h₂
    simp only [V1.renderMateria] at h₁ h₂
    cases hf : doc.find? (fun s => s.id == subjectId) with
    | none =>
      rw [hf] at h₁
      exact absurd h₁ (by simp)
    | some subject =>
      rw [hf] at h₁ h₂
      obtain rfl := Option.some.inj h₁
      obtain rfl := Option.some.inj h₂
      have hscrub := scrub_renderSubjectDom r₁ r₂ subject
      constructor
      · rw [← texts_scrubAttrs (V1.renderSubjectDom r₁ subject), hscrub, texts_scrubAttrs]
      · rw [← countClass_scrubAttrs V1.sCard (V1.renderSubjectDom r₁ subject), hscrub,
            countClass_scrubAttrs]
  · intro materiaId doc m area₁ area₂ hfind
    simp only [V3.renderMateria, hfind]
    refine ⟨trivial, ?_⟩
    cases hw : m.windows with
    | none => intro _; rfl
    | some ws => intro h; exact absurd h (by simp)

/-- C7 witness: rendering `S1` from the example document with all probes
succeeding and with all probes failing yields the same V1 text content and
card count, and the V3 render of the windowed subject is independent of the
prior content-area state. -/
theorem c7_render_deterministic_witness :
    (Dom.texts (V1.renderSubjectDom resolveIdFn subjS1)
        = Dom.texts (V1.renderSubjectDom resolveAllPlaceholder subjS1)
      ∧ countClass V1.sCard (V1.renderSubjectDom resolveIdFn subjS1)
        = countClass V1.sCard (V1.renderSubjectDom resolveAllPlaceholder subjS1))
    ∧ V3.renderMateria sS1 [subjWin] [] = V3.renderMateria sS1 [subjWin] [Dom.raw sHola] :=
  ⟨c7_render_deterministic.1 sS1 doc1 resolveIdFn resolveAllPlaceholder _ _ rfl rfl,
   (c7_render_deterministic.2 sS1 [subjWin] subjWin [] [Dom.raw sHola] rfl).1⟩

/-- C7 counterexample: the claim says that for every id present in the
document two calls produce DOM subtrees, but variant V3's `renderMateria`
on the present id `S1` of the example document (whose subject has no
`windows` field) produces no subtree at all — it throws a `TypeError` from
`materia.windows.map`. -/
theorem c7_counterexample_v3_throws_without_windows :
    V3.renderMateria sS1 doc1 [] = Except.error JsError.typeError := rfl

/-! ## C6 -/

theorem forall2_map_self {P : α → β → Prop} (f : α → β) (h : ∀ a, P a (f a)) :
    ∀ l : List α, List.Forall₂ P l (l.map f)
  | [] => List.Forall₂.nil
  | a :: l => List.Forall₂.cons (h a) (forall2_map_self f h l)

theorem childrenD_setAriaHiddenFalse (d : Dom) :
    (V2.setAriaHiddenFalse d).childrenD = d.childrenD := by
  cases d <;> rfl

theorem c6aux_panels (m : Materia) (ws : List Window) :
    List.Forall₂ (fun (w : Window) (p : Dom) =>
        p.childrenD = w.groups.filterMap fun groupId =>
          (m.groups.find? fun g => g.id == groupId).map fun g => V2.renderGroup g m.id)
      ws (V2.windowsEl m ws).childrenD := by
  have hbase : ∀ w : Window, (V2.renderWindow w m).childrenD
      = w.groups.filterMap fun groupId =>
        (m.groups.find? fun g => g.id == groupId).map fun g => V2.renderGroup g m.id := by
    intro w; rfl
  cases ws with
  | nil => exact List.Forall₂.nil
  | cons w ws =>
    show List.Forall₂ _ (w :: ws)
      (V2.setAriaHiddenFalse (V2.renderWindow w m) :: ws.map fun w' => V2.renderWindow w' m)
    refine List.Forall₂.cons ?_ (forall2_map_self (fun w' => V2.renderWindow w' m) hbase ws)
    rw [childrenD_setAriaHiddenFalse]
    exact hbase w

theorem c6aux_first_panel (m : Materia) (ws : List Window) :
    ∀ p, (V2.windowsEl m ws).childrenD.head? = some p → (sAriaHiddenKey, sFalse) ∈ p.attrsD := by
  intro p hp
  cases ws with
  | nil => simp [V2.windowsEl, createEl, V2.revealFirst, Dom.childrenD] at hp
  | cons w ws =>
    have hp' : some (V2.setAriaHiddenFalse (V2.renderWindow w m)) = some p := hp
    obtain rfl := Option.some.inj hp'
    simp [V2.setAriaHiddenFalse, V2.renderWindow, createEl, Dom.attrsD]

theorem c6aux_later_panels (m : Materia) (ws : List Window) :
    ∀ p ∈ (V2.windowsEl m ws).childrenD.tail, ∀ v, (sAriaHiddenKey, v) ∉ p.attrsD := by
  intro p hp v hmem
  cases ws with
  | nil => simp [V2.windowsEl, createEl, V2.revealFirst, Dom.childrenD] at hp
  | cons w ws =>
    have hp' : p ∈ ws.map fun w' => V2.renderWindow w' m := hp
    obtain ⟨w', _, rfl⟩ := List.mem_map.mp hp'
    simp [V2.renderWindow, createEl, Dom.attrsD] at hmem
    rcases hmem with ⟨h, -⟩ | ⟨h, -⟩ <;> exact absurd h (by decide)

theorem c6aux_tabs_later (ws : List Window) : ∀ (i : Nat),
    ∀ t ∈ V2.tabsFrom (i + 1) ws, (sAriaSelectedKey, sFalse) ∈ t.attrsD := by
  induction ws with
  | nil => intro i t ht; simp [V2.tabsFrom] at ht
  | cons w ws ih =>
    intro i t ht
    rw [V2.tabsFrom] at ht
    rcases List.mem_cons.mp ht with rfl | ht
    · have hb : ((i + 1) == 0) = false := by simp
      simp [V2.tabButton, createEl, Dom.attrsD, hb]
    · exact ih (i + 1) t ht

theorem c6aux_tabs_head (w : Window) :
    (sAriaSelectedKey, sTrue) ∈ (V2.tabButton 0 w).attrsD := by
  simp [V2.tabButton, createEl, Dom.attrsD]

/-- C6 (amended): in variant V2, a subject whose `windows` sequence is
non-empty renders as header + tablist + one `tabpanel` per window, where
each panel holds exactly the groups referenced by that window's `groups`
list (in reference order, unresolvable ids skipped), only the first panel
carries `aria-hidden="false"` (later panels carry no `aria-hidden` at all),
and only the first tab is `aria-selected="true"`; a subject with no or an
empty `windows` sequence renders all groups as one flat sequence.  Variant
V1, by contrast, ignores `windows` entirely: its output is unchanged under
any replacement of the `windows` field. -/
theorem c6_windows_partition :
    (∀ (m : Materia) (ws : List Window), m.windows = some ws → ws ≠ [] →
      V2.renderMateriaBody m
          = createEl sDiv { className := some V2.sMateriaContainer,
                            children := [V2.headerEl m, V2.tabsEl ws, V2.windowsEl m ws] }
        ∧ List.Forall₂ (fun (w : Window) (p : Dom) =>
            p.childrenD = w.groups.filterMap fun groupId =>
              (m.groups.find? fun g => g.id == groupId).map fun g => V2.renderGroup g m.id)
            ws (V2.windowsEl m ws).childrenD
        ∧ (∀ p, (V2.windowsEl m ws).childrenD.head? = some p → (sAriaHiddenKey, sFalse) ∈ p.attrsD)
        ∧ (∀ p ∈ (V2.windowsEl m ws).childrenD.tail, ∀ v, (sAriaHiddenKey, v) ∉ p.attrsD)
        ∧ (∀ t, (V2.tabsEl ws).childrenD.head? = some t → (sAriaSelectedKey, sTrue) ∈ t.attrsD)
        ∧ (∀ t ∈ (V2.tabsEl ws).childrenD.tail, (sAriaSelectedKey, sFalse) ∈ t.attrsD))
    ∧ (∀ m : Materia, m.windows = none ∨ m.windows = some [] →
        V2.renderMateriaBody m
          = createEl sDiv { className := some V2.sMateriaContainer, children := V2.flatChildren m })
    ∧ (∀ (s : Materia) (ws : Option (List Window)) (r : Str → Str),
        V1.renderSubjectDom r { s with windows := ws } = V1.renderSubjectDom r s) := by
  refine ⟨?_, ?_, ?_⟩
  · intro m ws hw hne
    refine ⟨?_, c6aux_panels m ws, c6aux_first_panel m ws, c6aux_later_panels m ws, ?_, ?_⟩
    · simp only [V2.renderMateriaBody, hw]
      rw [if_pos (List.length_pos.mpr hne)]
    · intro t ht
      cases ws with
      | nil => exact absurd rfl hne
      | cons w ws' =>
        have ht' : some (V2.tabButton 0 w) = some t := ht
        obtain rfl := Option.some.inj ht'
        exact c6aux_tabs_head w
    · intro t ht
      cases ws with
      | nil => exact absurd rfl hne
      | cons w ws' =>
        exact c6aux_tabs_later ws' 0 t ht
  · intro m hm
    rcases hm with hm | hm
    · simp only [V2.renderMateriaBody, hm]
    · simp only [V2.renderMateriaBody, hm]
      rw [if_neg (by simp)]
  · intro s ws r; rfl

/-- C6 witness: the windowed example subject renders as header + tabs +
panels in variant V2. -/
theorem c6_windows_partition_witness :
    V2.renderMateriaBody subjWin
      = createEl sDiv { className := some V2.sMateriaContainer,
                        children := [V2.headerEl subjWin, V2.tabsEl [winW1],
                                     V2.windowsEl subjWin [winW1]] } :=
  (c6_windows_partition.1 subjWin [winW1] rfl (by decide)).1

/-- C6 counterexample: the claim says every subject with a non-empty
`windows` sequence is partitioned into tab panels, but variant V1 renders
the windowed subject `subjWin` exactly as the windowless `subjS1` — the
windows are ignored and all groups appear as one flat sequence, with no
tab panel anywhere. -/
theorem c6_counterexample_v1_ignores_windows :
    V1.renderMateria resolveIdFn sS1 [subjWin] = V1.renderMateria resolveIdFn sS1 [subjS1] := rfl
